import Mathlib

/-!
Shallow embedding of the `gorsa` package (file `load.go`): loading RSA
private and public keys from PEM-encoded byte buffers or files.

External collaborators (`pem.Decode`, the `x509` parsers, `asn1.Unmarshal`,
`ioutil.ReadFile`) and the repository function `DecryptPEMBlock` (whose
source is not part of `load.go`) are modelled as components of an
environment `Env`; the control flow of `load.go` itself is translated
directly, line by line.

Bytes are modelled as `List Nat`, Go `error` values as `Option String`
(`none` = `nil`), and fallible external calls as `Except String _`.
-/

namespace Gorsa

/-- Models the ASCII whitespace class used by `bytes.TrimSpace`
(`'\t'`, `'\n'`, `'\v'`, `'\f'`, `'\r'`, `' '`); the Go function also trims
Unicode whitespace, but the claims under study only concern ASCII padding. -/
def isASCIISpace (b : Nat) : Bool :=
  b == 9 || b == 10 || b == 11 || b == 12 || b == 13 || b == 32

/-- Models `bytes.TrimSpace`: drop whitespace from the left, then from the
right (via reversal). -/
def trimSpace (l : List Nat) : List Nat :=
  ((l.dropWhile isASCIISpace).reverse.dropWhile isASCIISpace).reverse

/-- Models Go `rsa.PublicKey`: `{ N *big.Int; E int }`. -/
structure RSAPublicKey where
  n : Nat
  e : Nat
deriving DecidableEq

/-- Models Go `rsa.PrivateKey`: embedded `PublicKey`, private exponent `D`,
prime factors `Primes` (precomputed CRT values are omitted: no claim and no
line of `load.go` touches them). -/
structure RSAPrivateKey where
  publicKey : RSAPublicKey
  d : Nat
  primes : List Nat
deriving DecidableEq

/-- The Go zero value of `rsa.PublicKey`. -/
def zeroPub : RSAPublicKey := ⟨0, 0⟩

/-- The Go zero value of `rsa.PrivateKey` (the named return `key` before any
assignment). -/
def zeroPriv : RSAPrivateKey := ⟨zeroPub, 0, []⟩

/-- Models the `interface{}` value `generalKey`: the closed set of concrete
dynamic types a structural decoder can produce; `other` carries the Go type
name that `%T` would print (for example `"*ecdsa.PrivateKey"`). -/
inductive GenericKey where
  | rsaPriv (k : RSAPrivateKey)
  | rsaPub (k : RSAPublicKey)
  | other (typeName : String)
deriving DecidableEq

/-- The string `fmt.Errorf`'s `%T` verb prints for a `GenericKey`. -/
def goTypeName : GenericKey → String
  | .rsaPriv _ => "*rsa.PrivateKey"
  | .rsaPub _ => "*rsa.PublicKey"
  | .other t => t

/-- Models `pem.Block`: type label, headers, raw bytes. -/
structure PEMBlock where
  type : String
  headers : List (String × String)
  bytes : List Nat
deriving DecidableEq

/-- Models `x509.IsEncryptedPEMBlock`: a block is encrypted iff its headers
contain the key `"DEK-Info"`. -/
def IsEncryptedPEMBlock (b : PEMBlock) : Bool :=
  (b.headers.lookup "DEK-Info").isSome

/-- Environment of external collaborators. Each field models one function
`load.go` calls but does not define:
`pemDecode` models `pem.Decode` (returning only the first block; the rest
slice is discarded by `load.go`);
`DecryptPEMBlock` is modelled from the spec: the repository's
`DecryptPEMBlock` function is not part of `load.go`; per the spec it
decrypts an encrypted block with the supplied password, yielding a
cleartext block of the same structural kind or a decryption error;
`ParsePKCS1PrivateKey`, `ParsePKCS8PrivateKey`, `ParsePKIXPublicKey` model
the corresponding `x509` parsers (`ParsePKCS1PrivateKey` returns a typed
`*rsa.PrivateKey`; the other two return `interface{}` values);
`asn1UnmarshalRSAPrivateKey` / `asn1UnmarshalRSAPublicKey` model
`asn1.Unmarshal` into an `rsa.PrivateKey` / `rsa.PublicKey` variable;
`ReadFile` models `ioutil.ReadFile`, returning the bytes read so far
together with an optional error. -/
structure Env where
  pemDecode : List Nat → Option PEMBlock
  DecryptPEMBlock : PEMBlock → String → Except String PEMBlock
  ParsePKCS1PrivateKey : List Nat → Except String RSAPrivateKey
  ParsePKCS8PrivateKey : List Nat → Except String GenericKey
  ParsePKIXPublicKey : List Nat → Except String GenericKey
  asn1UnmarshalRSAPrivateKey : List Nat → Except String RSAPrivateKey
  asn1UnmarshalRSAPublicKey : List Nat → Except String RSAPublicKey
  ReadFile : String → List Nat × Option String

/-- Lines 26-32 and 96-102 of `load.go` (identical in both loaders): if the
block is encrypted, decrypt it, wrapping a decryption failure with the
explanatory message; otherwise pass the block through. -/
def effectiveBlock (env : Env) (block : PEMBlock) (password : String) :
    Except String PEMBlock :=
  if IsEncryptedPEMBlock block then
    match env.DecryptPEMBlock block password with
    | .error e => .error ("Error decrypting PEM block: " ++ e)
    | .ok b => .ok b
  else .ok block

/-- The labels of the `switch` at line 39 of `load.go`. -/
def privateLabels : List String :=
  ["PRIVATE KEY", "ENCRYPTED PRIVATE KEY", "RSA PRIVATE KEY"]

/-- The labels of the `switch` at lines 109-111 of `load.go`. -/
def publicLabels : List String :=
  ["PUBLIC KEY", "PRIVATE KEY", "ENCRYPTED PRIVATE KEY",
   "RSA PUBLIC KEY", "RSA PRIVATE KEY"]

/-- Lines 42-58 of `load.go`: the private-key decode cascade. Try PKCS#1;
on failure try PKCS#8; on failure try a raw `asn1.Unmarshal` into an
`rsa.PrivateKey`; the error of the last attempt is the error of the
cascade. -/
def cascadePrivate (env : Env) (b : List Nat) : Except String GenericKey :=
  match env.ParsePKCS1PrivateKey b with
  | .ok k => .ok (.rsaPriv k)
  | .error _ =>
    match env.ParsePKCS8PrivateKey b with
    | .ok gk => .ok gk
    | .error _ =>
      match env.asn1UnmarshalRSAPrivateKey b with
      | .ok x => .ok (.rsaPriv x)
      | .error e => .error e

/-- Lines 114-133 of `load.go`: the public-path decode cascade. Try PKIX;
then PKCS#1 private; then PKCS#8; then a raw `asn1.Unmarshal` into an
`rsa.PublicKey`; the error of the last attempt is the error of the
cascade. -/
def cascadePublic (env : Env) (b : List Nat) : Except String GenericKey :=
  match env.ParsePKIXPublicKey b with
  | .ok gk => .ok gk
  | .error _ =>
    match env.ParsePKCS1PrivateKey b with
    | .ok k => .ok (.rsaPriv k)
    | .error _ =>
      match env.ParsePKCS8PrivateKey b with
      | .ok gk => .ok gk
      | .error _ =>
        match env.asn1UnmarshalRSAPublicKey b with
        | .ok x => .ok (.rsaPub x)
        | .error e => .error e

/-- Body of `LoadPrivateKey` after the `bytes.TrimSpace` of line 16:
PEM decode (line 19), decryption step (lines 26-32), label switch (line 38),
decode cascade (lines 42-58), narrowing type switch (lines 61-66). The pair
is the Go named-return pair `(key, err)`; `key` is only ever assigned on the
success arm of the type switch, so every error arm returns `zeroPriv`. -/
def loadPrivateCore (env : Env) (trimmed : List Nat) (password : String) :
    RSAPrivateKey × Option String :=
  match env.pemDecode trimmed with
  | none => (zeroPriv, some "Invalid PEM key file")
  | some block0 =>
    match effectiveBlock env block0 password with
    | .error e => (zeroPriv, some e)
    | .ok block =>
      if block.type ∈ privateLabels then
        match cascadePrivate env block.bytes with
        | .error e => (zeroPriv, some e)
        | .ok gk =>
          match gk with
          | .rsaPriv k => (k, none)
          | _ => (zeroPriv, some ("Unsupported key type " ++ goTypeName gk))
      else
        (zeroPriv, some ("Unsupported PEM block type \"" ++ block.type ++ "\""))

/-- Lines 15-72 of `load.go`: `LoadPrivateKey`. -/
def LoadPrivateKey (env : Env) (pembytes : List Nat) (password : String) :
    RSAPrivateKey × Option String :=
  loadPrivateCore env (trimSpace pembytes) password

/-- Body of `LoadPublicKey` after the `bytes.TrimSpace` of line 86: PEM
decode, decryption step, label switch (lines 109-111), decode cascade
(lines 114-133), narrowing type switch (lines 136-146: an `rsa.PublicKey`
is returned directly, an `rsa.PrivateKey` is narrowed to its embedded
`PublicKey`, anything else is an unsupported key type). -/
def loadPublicCore (env : Env) (trimmed : List Nat) (password : String) :
    RSAPublicKey × Option String :=
  match env.pemDecode trimmed with
  | none => (zeroPub, some "Invalid PEM key file")
  | some block0 =>
    match effectiveBlock env block0 password with
    | .error e => (zeroPub, some e)
    | .ok block =>
      if block.type ∈ publicLabels then
        match cascadePublic env block.bytes with
        | .error e => (zeroPub, some e)
        | .ok gk =>
          match gk with
          | .rsaPub k => (k, none)
          | .rsaPriv k => (k.publicKey, none)
          | _ => (zeroPub, some ("Unsupported key type " ++ goTypeName gk))
      else
        (zeroPub, some ("Unsupported PEM block type \"" ++ block.type ++ "\""))

/-- Lines 85-152 of `load.go`: `LoadPublicKey`. -/
def LoadPublicKey (env : Env) (pembytes : List Nat) (password : String) :
    RSAPublicKey × Option String :=
  loadPublicCore env (trimSpace pembytes) password

/-- Lines 75-82 of `load.go`: `LoadPrivateKeyFromFile`. Note the faithful
translation of the bug: the error returned by `ReadFile` is assigned to the
named return `err` but never tested; the function unconditionally trims
whatever bytes were produced and returns `LoadPrivateKey` of them, which
overwrites `err`. -/
def LoadPrivateKeyFromFile (env : Env) (filename password : String) :
    RSAPrivateKey × Option String :=
  let r := env.ReadFile filename
  LoadPrivateKey env (trimSpace r.1) password

/-- Lines 155-162 of `load.go`: `LoadPublicKeyFromFile`, with the same
discarded `ReadFile` error as `LoadPrivateKeyFromFile`. -/
def LoadPublicKeyFromFile (env : Env) (filename password : String) :
    RSAPublicKey × Option String :=
  let r := env.ReadFile filename
  LoadPublicKey env (trimSpace r.1) password

/-! Concrete example environments, used to evaluate the embedded loaders on
explicit inputs. `errEnv` is the base environment in which every external
call fails; the others override single fields. -/

/-- A toy RSA private key (n = 61 * 53 = 3233, e = 17, d = 413). -/
def kTest : RSAPrivateKey := ⟨⟨3233, 17⟩, 413, [61, 53]⟩

/-- Base environment: every external decoder and the file read fail. -/
def errEnv : Env where
  pemDecode := fun _ => none
  DecryptPEMBlock := fun _ _ => .error "decrypt"
  ParsePKCS1PrivateKey := fun _ => .error "e1"
  ParsePKCS8PrivateKey := fun _ => .error "e2"
  ParsePKIXPublicKey := fun _ => .error "e0"
  asn1UnmarshalRSAPrivateKey := fun _ => .error "e3"
  asn1UnmarshalRSAPublicKey := fun _ => .error "e4"
  ReadFile := fun _ => ([], none)

/-- Environment for the file loaders: reading `"missing.pem"` fails with an
I/O error, and no byte string holds a PEM block. -/
def envC1 : Env :=
  { errEnv with
    ReadFile := fun f =>
      match f with
      | "missing.pem" => ([], some "open missing.pem: no such file or directory")
      | _ => ([], none) }

/-- Environment exercising every arm of the private cascade: PKCS#1
succeeds on `[0]`, PKCS#8 on `[1]` (with a non-RSA key), the raw unmarshal
on `[2]`; everything fails on `[3]`, and the byte string `[65]` holds an
unencrypted `"RSA PRIVATE KEY"` block whose bytes are `[3]`. -/
def envC2 : Env :=
  { errEnv with
    pemDecode := fun b =>
      match b with
      | [65] => some ⟨"RSA PRIVATE KEY", [], [3]⟩
      | _ => none
    ParsePKCS1PrivateKey := fun b =>
      match b with
      | [0] => .ok kTest
      | _ => .error "e1"
    ParsePKCS8PrivateKey := fun b =>
      match b with
      | [1] => .ok (.other "*ecdsa.PrivateKey")
      | _ => .error "e2"
    asn1UnmarshalRSAPrivateKey := fun b =>
      match b with
      | [2] => .ok kTest
      | _ => .error "e3" }

/-- Environment exercising every arm of the public cascade: PKIX succeeds
on `[0]`, PKCS#1 on `[1]`, PKCS#8 on `[2]`, the raw unmarshal on `[3]`;
everything fails on `[4]`, and the byte string `[66]` holds an unencrypted
`"PUBLIC KEY"` block whose bytes are `[4]`. -/
def envC3 : Env :=
  { errEnv with
    pemDecode := fun b =>
      match b with
      | [66] => some ⟨"PUBLIC KEY", [], [4]⟩
      | _ => none
    ParsePKIXPublicKey := fun b =>
      match b with
      | [0] => .ok (.rsaPub ⟨3233, 17⟩)
      | _ => .error "e0"
    ParsePKCS1PrivateKey := fun b =>
      match b with
      | [1] => .ok kTest
      | _ => .error "e1"
    ParsePKCS8PrivateKey := fun b =>
      match b with
      | [2] => .ok (.rsaPriv kTest)
      | _ => .error "e2"
    asn1UnmarshalRSAPublicKey := fun b =>
      match b with
      | [3] => .ok ⟨3233, 17⟩
      | _ => .error "e4" }

/-- Environment modelling an oldest-style private key: the block bytes
`[66]` ASN.1-unmarshal as a full `rsa.PrivateKey` structure but match none
of the container grammars, and in particular do not unmarshal as the
two-field `rsa.PublicKey` structure (a DER sequence encoding a full
private key starts with a nested sequence where the public-key grammar
expects an integer, so the real decoders behave exactly this way). -/
def envC4 : Env :=
  { errEnv with
    pemDecode := fun b =>
      match b with
      | [65] => some ⟨"RSA PRIVATE KEY", [], [66]⟩
      | _ => none
    ParsePKCS1PrivateKey := fun _ => .error "asn1: structure error: pkcs1"
    ParsePKCS8PrivateKey := fun _ => .error "asn1: structure error: pkcs8"
    ParsePKIXPublicKey := fun _ => .error "asn1: structure error: pkix"
    asn1UnmarshalRSAPrivateKey := fun b =>
      match b with
      | [66] => .ok kTest
      | _ => .error "e3"
    asn1UnmarshalRSAPublicKey := fun _ =>
      .error "asn1: structure error: tags don't match" }

/-- Environment for the amended round-trip: the block bytes `[66]` parse as
PKCS#1 and fail PKIX, as with a real PKCS#1 private-key encoding. -/
def envC4w : Env :=
  { errEnv with
    pemDecode := fun b =>
      match b with
      | [65] => some ⟨"RSA PRIVATE KEY", [], [66]⟩
      | _ => none
    ParsePKCS1PrivateKey := fun b =>
      match b with
      | [66] => .ok kTest
      | _ => .error "e1" }

/-- Environment exercising every arm of the narrowing switches: five byte
strings map to unencrypted blocks whose bytes make the respective cascade
produce an RSA public key, an RSA private key, or a non-RSA key. -/
def envC5 : Env :=
  { errEnv with
    pemDecode := fun b =>
      match b with
      | [65] => some ⟨"PUBLIC KEY", [], [1]⟩
      | [66] => some ⟨"PUBLIC KEY", [], [2]⟩
      | [67] => some ⟨"PUBLIC KEY", [], [3]⟩
      | [68] => some ⟨"RSA PRIVATE KEY", [], [4]⟩
      | [69] => some ⟨"RSA PRIVATE KEY", [], [5]⟩
      | _ => none
    ParsePKIXPublicKey := fun b =>
      match b with
      | [1] => .ok (.rsaPub ⟨3233, 17⟩)
      | [2] => .ok (.rsaPriv kTest)
      | [3] => .ok (.other "*ecdsa.PublicKey")
      | _ => .error "e0"
    ParsePKCS1PrivateKey := fun b =>
      match b with
      | [4] => .ok kTest
      | _ => .error "e1"
    ParsePKCS8PrivateKey := fun b =>
      match b with
      | [5] => .ok (.other "*ecdsa.PrivateKey")
      | _ => .error "e2" }

/-- Environment with a block whose label is outside both accepted sets. -/
def envC6 : Env :=
  { errEnv with
    pemDecode := fun b =>
      match b with
      | [65] => some ⟨"CERTIFICATE", [], [1]⟩
      | _ => none }

/-- Environment with an encrypted block (its headers carry `"DEK-Info"`)
whose decryption fails. -/
def envC8 : Env :=
  { errEnv with
    pemDecode := fun b =>
      match b with
      | [65] => some ⟨"RSA PRIVATE KEY",
          [("Proc-Type", "4,ENCRYPTED"), ("DEK-Info", "DES-EDE3-CBC,A1B2")], [7]⟩
      | _ => none
    DecryptPEMBlock := fun _ _ => .error "x509: decryption password incorrect" }

/-- Environment with an unencrypted block that decodes via PKCS#1,
used to observe that the password argument is not consulted. -/
def envC10 : Env :=
  { errEnv with
    pemDecode := fun b =>
      match b with
      | [65] => some ⟨"RSA PRIVATE KEY", [], [0]⟩
      | _ => none
    ParsePKCS1PrivateKey := fun b =>
      match b with
      | [0] => .ok kTest
      | _ => .error "e1" }

/-! Helper lemmas about `trimSpace`. -/

lemma dropWhile_append_of_forall {q : Nat → Bool} {p : List Nat} (l : List Nat)
    (h : ∀ x ∈ p, q x = true) : (p ++ l).dropWhile q = l.dropWhile q := by
  induction p with
  | nil => rfl
  | cons a p ih =>
    rw [List.cons_append, List.dropWhile_cons_of_pos (h a (List.mem_cons_self a p))]
    exact ih (fun x hx => h x (List.mem_cons_of_mem a hx))

lemma dropWhile_eq_nil_of_forall {q : Nat → Bool} {s : List Nat}
    (h : ∀ x ∈ s, q x = true) : s.dropWhile q = [] :=
  List.dropWhile_eq_nil_iff.mpr h

lemma trimSpace_append_left (p l : List Nat) (h : ∀ x ∈ p, isASCIISpace x = true) :
    trimSpace (p ++ l) = trimSpace l := by
  unfold trimSpace
  rw [dropWhile_append_of_forall l h]

lemma trimSpace_append_right (l s : List Nat) (h : ∀ x ∈ s, isASCIISpace x = true) :
    trimSpace (l ++ s) = trimSpace l := by
  induction l with
  | nil =>
    simp only [List.nil_append]
    unfold trimSpace
    rw [dropWhile_eq_nil_of_forall h]
    rfl
  | cons a l ih =>
    by_cases hq : isASCIISpace a = true
    · unfold trimSpace at ih ⊢
      rw [List.cons_append, List.dropWhile_cons_of_pos hq,
        List.dropWhile_cons_of_pos hq]
      exact ih
    · have hq' : ¬ (isASCIISpace a = true) := hq
      unfold trimSpace
      rw [List.cons_append, List.dropWhile_cons_of_neg hq',
        List.dropWhile_cons_of_neg hq', List.reverse_cons, List.reverse_cons,
        List.reverse_append, List.append_assoc,
        dropWhile_append_of_forall _ (fun x hx => h x (List.mem_reverse.mp hx))]

lemma trimSpace_pad (p b s : List Nat) (hp : ∀ x ∈ p, isASCIISpace x = true)
    (hs : ∀ x ∈ s, isASCIISpace x = true) :
    trimSpace (p ++ b ++ s) = trimSpace b := by
  rw [List.append_assoc, trimSpace_append_left p (b ++ s) hp,
    trimSpace_append_right b s hs]

lemma loadPrivateCore_zero_or_ok (env : Env) (t : List Nat) (pass : String) :
    (loadPrivateCore env t pass).2 = none ∨
      (loadPrivateCore env t pass).1 = zeroPriv := by
  cases h0 : env.pemDecode t with
  | none => simp [loadPrivateCore, h0]
  | some block0 =>
    cases h1 : effectiveBlock env block0 pass with
    | error e => simp [loadPrivateCore, h0, h1]
    | ok blk =>
      by_cases h : blk.type ∈ privateLabels
      · cases h2 : cascadePrivate env blk.bytes with
        | error e => simp [loadPrivateCore, h0, h1, h2, h]
        | ok gk =>
          cases gk with
          | rsaPriv k => simp [loadPrivateCore, h0, h1, h2, h]
          | rsaPub k => simp [loadPrivateCore, h0, h1, h2, h]
          | other t' => simp [loadPrivateCore, h0, h1, h2, h]
      · simp [loadPrivateCore, h0, h1, h]

lemma loadPublicCore_zero_or_ok (env : Env) (t : List Nat) (pass : String) :
    (loadPublicCore env t pass).2 = none ∨
      (loadPublicCore env t pass).1 = zeroPub := by
  cases h0 : env.pemDecode t with
  | none => simp [loadPublicCore, h0]
  | some block0 =>
    cases h1 : effectiveBlock env block0 pass with
    | error e => simp [loadPublicCore, h0, h1]
    | ok blk =>
      by_cases h : blk.type ∈ publicLabels
      · cases h2 : cascadePublic env blk.bytes with
        | error e => simp [loadPublicCore, h0, h1, h2, h]
        | ok gk =>
          cases gk with
          | rsaPriv k => simp [loadPublicCore, h0, h1, h2, h]
          | rsaPub k => simp [loadPublicCore, h0, h1, h2, h]
          | other t' => simp [loadPublicCore, h0, h1, h2, h]
      · simp [loadPublicCore, h0, h1, h]

/-- C7: atomicity of the result — for every environment, input buffer and
passphrase, each loader either returns no error, or returns the zero/default
key value together with its error; a partially-populated key is never
returned. -/
theorem C7_atomicity (env : Env) (bytes : List Nat) (pass : String) :
    ((LoadPrivateKey env bytes pass).2 = none ∨
      (LoadPrivateKey env bytes pass).1 = zeroPriv) ∧
    ((LoadPublicKey env bytes pass).2 = none ∨
      (LoadPublicKey env bytes pass).1 = zeroPub) :=
  ⟨loadPrivateCore_zero_or_ok env (trimSpace bytes) pass,
   loadPublicCore_zero_or_ok env (trimSpace bytes) pass⟩

/-- C9: whitespace invariance — surrounding a buffer with ASCII whitespace
padding changes neither loader's result, because both trim surrounding
whitespace before PEM decoding. -/
theorem C9_whitespace_invariance (env : Env) (p b s : List Nat) (pass : String)
    (hp : ∀ x ∈ p, isASCIISpace x = true) (hs : ∀ x ∈ s, isASCIISpace x = true) :
    LoadPrivateKey env (p ++ b ++ s) pass = LoadPrivateKey env b pass ∧
    LoadPublicKey env (p ++ b ++ s) pass = LoadPublicKey env b pass := by
  have ht : trimSpace (p ++ b ++ s) = trimSpace b := trimSpace_pad p b s hp hs
  constructor
  · unfold LoadPrivateKey; rw [ht]
  · unfold LoadPublicKey; rw [ht]

/-- Witness for C9 at a concrete padded buffer. -/
theorem C9_whitespace_invariance_witness :
    LoadPrivateKey errEnv ([32, 10] ++ [65] ++ [13, 9]) "" =
      LoadPrivateKey errEnv [65] "" ∧
    LoadPublicKey errEnv ([32, 10] ++ [65] ++ [13, 9]) "" =
      LoadPublicKey errEnv [65] "" :=
  C9_whitespace_invariance errEnv [32, 10] [65] [13, 9] ""
    (by decide) (by decide)

/-- C10: passphrase noninterference — when the decoded block is not
detected as encrypted, both loaders return identical results for any two
passphrases: the passphrase is only consulted in the decryption branch. -/
theorem C10_passphrase_noninterference (env : Env) (bytes : List Nat)
    (block : PEMBlock) (h1 : env.pemDecode (trimSpace bytes) = some block)
    (h2 : IsEncryptedPEMBlock block = false) (p1 p2 : String) :
    LoadPrivateKey env bytes p1 = LoadPrivateKey env bytes p2 ∧
    LoadPublicKey env bytes p1 = LoadPublicKey env bytes p2 := by
  have he : ∀ q, effectiveBlock env block q = .ok block := by
    intro q
    unfold effectiveBlock
    rw [h2]
    rfl
  constructor
  · unfold LoadPrivateKey
    simp only [loadPrivateCore, h1, he]
  · unfold LoadPublicKey
    simp only [loadPublicCore, h1, he]

/-- Witness for C10: an unencrypted block yields the same result under two
different passphrases. -/
theorem C10_passphrase_noninterference_witness :
    LoadPrivateKey envC10 [65] "hunter2" = LoadPrivateKey envC10 [65] "" ∧
    LoadPublicKey envC10 [65] "hunter2" = LoadPublicKey envC10 [65] "" :=
  C10_passphrase_noninterference envC10 [65] ⟨"RSA PRIVATE KEY", [], [0]⟩
    rfl rfl "hunter2" ""

lemma mem_publicLabels_of_mem_privateLabels {t : String}
    (h : t ∈ privateLabels) : t ∈ publicLabels := by
  simp only [privateLabels, List.mem_cons, List.not_mem_nil, or_false] at h
  rcases h with h | h | h <;> simp [publicLabels, h]

/-- C2: the private-key cascade tries PKCS#1, then PKCS#8 only if PKCS#1
failed, then the raw ASN.1 unmarshal only if PKCS#8 also failed; the first
structural success wins (the result is then independent of the later
decoders), and when all three fail, `LoadPrivateKey` returns exactly the
error of the final raw attempt, the earlier errors being discarded. -/
theorem C2_private_cascade_order (env : Env) (b : List Nat) :
    (∀ k, env.ParsePKCS1PrivateKey b = .ok k →
      cascadePrivate env b = .ok (.rsaPriv k)) ∧
    (∀ e1 gk, env.ParsePKCS1PrivateKey b = .error e1 →
      env.ParsePKCS8PrivateKey b = .ok gk →
      cascadePrivate env b = .ok gk) ∧
    (∀ e1 e2 x, env.ParsePKCS1PrivateKey b = .error e1 →
      env.ParsePKCS8PrivateKey b = .error e2 →
      env.asn1UnmarshalRSAPrivateKey b = .ok x →
      cascadePrivate env b = .ok (.rsaPriv x)) ∧
    (∀ e1 e2 e3, env.ParsePKCS1PrivateKey b = .error e1 →
      env.ParsePKCS8PrivateKey b = .error e2 →
      env.asn1UnmarshalRSAPrivateKey b = .error e3 →
      cascadePrivate env b = .error e3) ∧
    (∀ bytes pass block e1 e2 e3,
      env.pemDecode (trimSpace bytes) = some block →
      IsEncryptedPEMBlock block = false →
      block.type ∈ privateLabels →
      env.ParsePKCS1PrivateKey block.bytes = .error e1 →
      env.ParsePKCS8PrivateKey block.bytes = .error e2 →
      env.asn1UnmarshalRSAPrivateKey block.bytes = .error e3 →
      LoadPrivateKey env bytes pass = (zeroPriv, some e3)) := by
  refine ⟨?_, ?_, ?_, ?_, ?_⟩
  · intro k hk
    unfold cascadePrivate
    rw [hk]
  · intro e1 gk h1 h8
    unfold cascadePrivate
    rw [h1, h8]
  · intro e1 e2 x h1 h8 hx
    unfold cascadePrivate
    rw [h1, h8, hx]
  · intro e1 e2 e3 h1 h8 h3
    unfold cascadePrivate
    rw [h1, h8, h3]
  · intro bytes pass block e1 e2 e3 hd henc hmem h1 h8 h3
    have heff : effectiveBlock env block pass = .ok block := by
      unfold effectiveBlock
      rw [henc]
      rfl
    have hcasc : cascadePrivate env block.bytes = .error e3 := by
      unfold cascadePrivate
      rw [h1, h8, h3]
    unfold LoadPrivateKey
    simp only [loadPrivateCore, hd, heff, hcasc]
    rw [if_pos hmem]

/-- Witness for C2 in an environment exercising every arm of the private
cascade: a PKCS#1 success, a PKCS#8 success with a non-RSA key, a raw
success, a total failure, and a loader call surfacing the final error. -/
theorem C2_private_cascade_order_witness :
    cascadePrivate envC2 [0] = .ok (.rsaPriv kTest) ∧
    cascadePrivate envC2 [1] = .ok (.other "*ecdsa.PrivateKey") ∧
    cascadePrivate envC2 [2] = .ok (.rsaPriv kTest) ∧
    cascadePrivate envC2 [3] = .error "e3" ∧
    LoadPrivateKey envC2 [65] "" = (zeroPriv, some "e3") :=
  ⟨(C2_private_cascade_order envC2 [0]).1 kTest rfl,
   (C2_private_cascade_order envC2 [1]).2.1 "e1" (.other "*ecdsa.PrivateKey")
     rfl rfl,
   (C2_private_cascade_order envC2 [2]).2.2.1 "e1" "e2" kTest rfl rfl rfl,
   (C2_private_cascade_order envC2 [3]).2.2.2.1 "e1" "e2" "e3" rfl rfl rfl,
   (C2_private_cascade_order envC2 [3]).2.2.2.2 [65] ""
     ⟨"RSA PRIVATE KEY", [], [3]⟩ "e1" "e2" "e3" rfl rfl (by decide)
     rfl rfl rfl⟩

/-- C3: the public-path cascade tries PKIX, then PKCS#1 private, then
PKCS#8, then the raw ASN.1 unmarshal into an RSA public-key structure, each
later decoder only after the previous one failed; the first success wins,
and when all four fail, `LoadPublicKey` returns the error of the final raw
attempt. -/
theorem C3_public_cascade_order (env : Env) (b : List Nat) :
    (∀ gk, env.ParsePKIXPublicKey b = .ok gk →
      cascadePublic env b = .ok gk) ∧
    (∀ e0 k, env.ParsePKIXPublicKey b = .error e0 →
      env.ParsePKCS1PrivateKey b = .ok k →
      cascadePublic env b = .ok (.rsaPriv k)) ∧
    (∀ e0 e1 gk, env.ParsePKIXPublicKey b = .error e0 →
      env.ParsePKCS1PrivateKey b = .error e1 →
      env.ParsePKCS8PrivateKey b = .ok gk →
      cascadePublic env b = .ok gk) ∧
    (∀ e0 e1 e2 x, env.ParsePKIXPublicKey b = .error e0 →
      env.ParsePKCS1PrivateKey b = .error e1 →
      env.ParsePKCS8PrivateKey b = .error e2 →
      env.asn1UnmarshalRSAPublicKey b = .ok x →
      cascadePublic env b = .ok (.rsaPub x)) ∧
    (∀ e0 e1 e2 e4, env.ParsePKIXPublicKey b = .error e0 →
      env.ParsePKCS1PrivateKey b = .error e1 →
      env.ParsePKCS8PrivateKey b = .error e2 →
      env.asn1UnmarshalRSAPublicKey b = .error e4 →
      cascadePublic env b = .error e4) ∧
    (∀ bytes pass block e0 e1 e2 e4,
      env.pemDecode (trimSpace bytes) = some block →
      IsEncryptedPEMBlock block = false →
      block.type ∈ publicLabels →
      env.ParsePKIXPublicKey block.bytes = .error e0 →
      env.ParsePKCS1PrivateKey block.bytes = .error e1 →
      env.ParsePKCS8PrivateKey block.bytes = .error e2 →
      env.asn1UnmarshalRSAPublicKey block.bytes = .error e4 →
      LoadPublicKey env bytes pass = (zeroPub, some e4)) := by
  refine ⟨?_, ?_, ?_, ?_, ?_, ?_⟩
  · intro gk hk
    unfold cascadePublic
    rw [hk]
  · intro e0 k h0 h1
    unfold cascadePublic
    rw [h0, h1]
  · intro e0 e1 gk h0 h1 h8
    unfold cascadePublic
    rw [h0, h1, h8]
  · intro e0 e1 e2 x h0 h1 h8 hx
    unfold cascadePublic
    rw [h0, h1, h8, hx]
  · intro e0 e1 e2 e4 h0 h1 h8 h4
    unfold cascadePublic
    rw [h0, h1, h8, h4]
  · intro bytes pass block e0 e1 e2 e4 hd henc hmem h0 h1 h8 h4
    have heff : effectiveBlock env block pass = .ok block := by
      unfold effectiveBlock
      rw [henc]
      rfl
    have hcasc : cascadePublic env block.bytes = .error e4 := by
      unfold cascadePublic
      rw [h0, h1, h8, h4]
    unfold LoadPublicKey
    simp only [loadPublicCore, hd, heff, hcasc]
    rw [if_pos hmem]

/-- Witness for C3 in an environment exercising every arm of the public
cascade. -/
theorem C3_public_cascade_order_witness :
    cascadePublic envC3 [0] = .ok (.rsaPub ⟨3233, 17⟩) ∧
    cascadePublic envC3 [1] = .ok (.rsaPriv kTest) ∧
    cascadePublic envC3 [2] = .ok (.rsaPriv kTest) ∧
    cascadePublic envC3 [3] = .ok (.rsaPub ⟨3233, 17⟩) ∧
    cascadePublic envC3 [4] = .error "e4" ∧
    LoadPublicKey envC3 [66] "" = (zeroPub, some "e4") :=
  ⟨(C3_public_cascade_order envC3 [0]).1 (.rsaPub ⟨3233, 17⟩) rfl,
   (C3_public_cascade_order envC3 [1]).2.1 "e0" kTest rfl rfl,
   (C3_public_cascade_order envC3 [2]).2.2.1 "e0" "e1" (.rsaPriv kTest)
     rfl rfl rfl,
   (C3_public_cascade_order envC3 [3]).2.2.2.1 "e0" "e1" "e2" ⟨3233, 17⟩
     rfl rfl rfl rfl,
   (C3_public_cascade_order envC3 [4]).2.2.2.2.1 "e0" "e1" "e2" "e4"
     rfl rfl rfl rfl,
   (C3_public_cascade_order envC3 [4]).2.2.2.2.2 [66] ""
     ⟨"PUBLIC KEY", [], [4]⟩ "e0" "e1" "e2" "e4" rfl rfl (by decide)
     rfl rfl rfl rfl⟩

/-- C1: the file loaders do not propagate the I/O error of a failed read.
When `ReadFile` fails, the error is assigned to the named return and then
discarded: both file loaders continue with the bytes produced so far (here
none) and return the envelope error `"Invalid PEM key file"` instead of the
I/O error, contradicting the claim that the read error is surfaced
unchanged. -/
theorem C1_file_read_error_discarded :
    (envC1.ReadFile "missing.pem").2 =
      some "open missing.pem: no such file or directory" ∧
    LoadPrivateKeyFromFile envC1 "missing.pem" "" =
      (zeroPriv, some "Invalid PEM key file") ∧
    LoadPublicKeyFromFile envC1 "missing.pem" "" =
      (zeroPub, some "Invalid PEM key file") :=
  ⟨rfl, rfl, rfl⟩

/-- C4 counterexample: a buffer whose block bytes only decode through the
raw private-key fallback. `LoadPrivateKey` succeeds, but `LoadPublicKey` on
the same buffer and passphrase fails: its raw fallback unmarshals an
`rsa.PublicKey` structure, which rejects the private-key DER (a full
private-key sequence starts with a nested sequence where the public-key
grammar expects an integer), so the claimed round-trip does not hold. -/
theorem C4_roundtrip_counterexample :
    LoadPrivateKey envC4 [65] "" = (kTest, none) ∧
    LoadPublicKey envC4 [65] "" =
      (zeroPub, some "asn1: structure error: tags don't match") :=
  ⟨rfl, rfl⟩

/-- C4 amended: whenever `LoadPrivateKey` succeeds through the PKCS#1 or
PKCS#8 decoder (not the raw fallback) and the PKIX decoder fails on the
same block bytes — as it does on every real PKCS#1/PKCS#8 private-key
encoding — `LoadPublicKey` on the same buffer and passphrase succeeds and
returns exactly the public component of the loaded private key. -/
theorem C4_roundtrip_amended (env : Env) (bytes : List Nat) (pass : String)
    (block blk : PEMBlock) (k : RSAPrivateKey)
    (h1 : env.pemDecode (trimSpace bytes) = some block)
    (h2 : effectiveBlock env block pass = .ok blk)
    (h3 : blk.type ∈ privateLabels)
    (h4 : env.ParsePKCS1PrivateKey blk.bytes = .ok k ∨
      ((∃ e, env.ParsePKCS1PrivateKey blk.bytes = .error e) ∧
        env.ParsePKCS8PrivateKey blk.bytes = .ok (.rsaPriv k)))
    (h5 : ∃ e0, env.ParsePKIXPublicKey blk.bytes = .error e0) :
    LoadPrivateKey env bytes pass = (k, none) ∧
    LoadPublicKey env bytes pass = (k.publicKey, none) := by
  have h3' : blk.type ∈ publicLabels := mem_publicLabels_of_mem_privateLabels h3
  obtain ⟨e0, he0⟩ := h5
  have hcp : cascadePrivate env blk.bytes = .ok (.rsaPriv k) := by
    rcases h4 with h | ⟨⟨e, he⟩, h8⟩
    · unfold cascadePrivate
      rw [h]
    · unfold cascadePrivate
      rw [he, h8]
  have hcq : cascadePublic env blk.bytes = .ok (.rsaPriv k) := by
    rcases h4 with h | ⟨⟨e, he⟩, h8⟩
    · unfold cascadePublic
      rw [he0, h]
    · unfold cascadePublic
      rw [he0, he, h8]
  constructor
  · unfold LoadPrivateKey
    simp only [loadPrivateCore, h1, h2, hcp]
    rw [if_pos h3]
  · unfold LoadPublicKey
    simp only [loadPublicCore, h1, h2, hcq]
    rw [if_pos h3']

/-- Witness for the amended C4: a PKCS#1-decodable private-key block on
which both loaders agree on the public component. -/
theorem C4_roundtrip_amended_witness :
    LoadPrivateKey envC4w [65] "" = (kTest, none) ∧
    LoadPublicKey envC4w [65] "" = (kTest.publicKey, none) :=
  C4_roundtrip_amended envC4w [65] "" ⟨"RSA PRIVATE KEY", [], [66]⟩
    ⟨"RSA PRIVATE KEY", [], [66]⟩ kTest rfl rfl (by decide)
    (Or.inl rfl) ⟨"e0", rfl⟩

/-- C5: the narrowing rule. On the public path a decoded RSA public key is
returned directly, a decoded RSA private key is narrowed to its public
component (modulus and exponent, discarding the private fields), and any
other concrete type yields the terminal unsupported-key-type error naming
the actual type; on the private path only an RSA private key passes, and
every other decoded type yields the same error with its type name. -/
theorem C5_key_narrowing (env : Env) (bytes : List Nat) (pass : String)
    (block blk : PEMBlock)
    (h1 : env.pemDecode (trimSpace bytes) = some block)
    (h2 : effectiveBlock env block pass = .ok blk) :
    (blk.type ∈ publicLabels →
      (∀ k, cascadePublic env blk.bytes = .ok (.rsaPub k) →
        LoadPublicKey env bytes pass = (k, none)) ∧
      (∀ k, cascadePublic env blk.bytes = .ok (.rsaPriv k) →
        LoadPublicKey env bytes pass = (k.publicKey, none)) ∧
      (∀ t, cascadePublic env blk.bytes = .ok (.other t) →
        LoadPublicKey env bytes pass =
          (zeroPub, some ("Unsupported key type " ++ goTypeName (.other t))))) ∧
    (blk.type ∈ privateLabels →
      (∀ k, cascadePrivate env blk.bytes = .ok (.rsaPriv k) →
        LoadPrivateKey env bytes pass = (k, none)) ∧
      (∀ k, cascadePrivate env blk.bytes = .ok (.rsaPub k) →
        LoadPrivateKey env bytes pass =
          (zeroPriv, some ("Unsupported key type " ++ goTypeName (.rsaPub k)))) ∧
      (∀ t, cascadePrivate env blk.bytes = .ok (.other t) →
        LoadPrivateKey env bytes pass =
          (zeroPriv, some ("Unsupported key type " ++ goTypeName (.other t))))) := by
  constructor
  · intro hmem
    refine ⟨?_, ?_, ?_⟩ <;> intro v hc <;>
      (unfold LoadPublicKey; simp only [loadPublicCore, h1, h2, hc];
       rw [if_pos hmem])
  · intro hmem
    refine ⟨?_, ?_, ?_⟩ <;> intro v hc <;>
      (unfold LoadPrivateKey; simp only [loadPrivateCore, h1, h2, hc];
       rw [if_pos hmem])

/-- Witness for C5 at all five narrowing outcomes. -/
theorem C5_key_narrowing_witness :
    LoadPublicKey envC5 [65] "" = (⟨3233, 17⟩, none) ∧
    LoadPublicKey envC5 [66] "" = (kTest.publicKey, none) ∧
    LoadPublicKey envC5 [67] "" =
      (zeroPub, some ("Unsupported key type " ++ "*ecdsa.PublicKey")) ∧
    LoadPrivateKey envC5 [68] "" = (kTest, none) ∧
    LoadPrivateKey envC5 [69] "" =
      (zeroPriv, some ("Unsupported key type " ++ "*ecdsa.PrivateKey")) :=
  ⟨((C5_key_narrowing envC5 [65] "" ⟨"PUBLIC KEY", [], [1]⟩
      ⟨"PUBLIC KEY", [], [1]⟩ rfl rfl).1 (by decide)).1 ⟨3233, 17⟩ rfl,
   ((C5_key_narrowing envC5 [66] "" ⟨"PUBLIC KEY", [], [2]⟩
      ⟨"PUBLIC KEY", [], [2]⟩ rfl rfl).1 (by decide)).2.1 kTest rfl,
   ((C5_key_narrowing envC5 [67] "" ⟨"PUBLIC KEY", [], [3]⟩
      ⟨"PUBLIC KEY", [], [3]⟩ rfl rfl).1 (by decide)).2.2
     "*ecdsa.PublicKey" rfl,
   ((C5_key_narrowing envC5 [68] "" ⟨"RSA PRIVATE KEY", [], [4]⟩
      ⟨"RSA PRIVATE KEY", [], [4]⟩ rfl rfl).2 (by decide)).1 kTest rfl,
   ((C5_key_narrowing envC5 [69] "" ⟨"RSA PRIVATE KEY", [], [5]⟩
      ⟨"RSA PRIVATE KEY", [], [5]⟩ rfl rfl).2 (by decide)).2.2
     "*ecdsa.PrivateKey" rfl⟩

/-- C6: label dispatch is an exact, case-sensitive string match:
`privateLabels` is exactly the three private-key labels and `publicLabels`
exactly those plus the two public ones; for a block whose (possibly
decrypted) label is outside the respective set, the loader returns the
terminal unsupported-PEM-block-type error naming the offending label — the
result holds for every assignment of the structural decoders, so no
structural decode can influence it. -/
theorem C6_label_dispatch :
    (∀ t : String, t ∈ privateLabels ↔
      (t = "PRIVATE KEY" ∨ t = "ENCRYPTED PRIVATE KEY" ∨
        t = "RSA PRIVATE KEY")) ∧
    (∀ t : String, t ∈ publicLabels ↔
      (t = "PUBLIC KEY" ∨ t = "PRIVATE KEY" ∨ t = "ENCRYPTED PRIVATE KEY" ∨
        t = "RSA PUBLIC KEY" ∨ t = "RSA PRIVATE KEY")) ∧
    (∀ (env : Env) (bytes : List Nat) (pass : String) (block blk : PEMBlock),
      env.pemDecode (trimSpace bytes) = some block →
      effectiveBlock env block pass = .ok blk →
      blk.type ∉ privateLabels →
      LoadPrivateKey env bytes pass =
        (zeroPriv, some ("Unsupported PEM block type \"" ++ blk.type ++ "\""))) ∧
    (∀ (env : Env) (bytes : List Nat) (pass : String) (block blk : PEMBlock),
      env.pemDecode (trimSpace bytes) = some block →
      effectiveBlock env block pass = .ok blk →
      blk.type ∉ publicLabels →
      LoadPublicKey env bytes pass =
        (zeroPub, some ("Unsupported PEM block type \"" ++ blk.type ++ "\""))) := by
  refine ⟨?_, ?_, ?_, ?_⟩
  · intro t
    simp [privateLabels]
  · intro t
    simp [publicLabels]
  · intro env bytes pass block blk h1 h2 h3
    unfold LoadPrivateKey
    simp only [loadPrivateCore, h1, h2]
    rw [if_neg h3]
  · intro env bytes pass block blk h1 h2 h3
    unfold LoadPublicKey
    simp only [loadPublicCore, h1, h2]
    rw [if_neg h3]

/-- Witness for C6: a `"CERTIFICATE"` block is rejected by both loaders
with the error naming that label. -/
theorem C6_label_dispatch_witness :
    LoadPrivateKey envC6 [65] "" =
      (zeroPriv, some ("Unsupported PEM block type \"" ++ "CERTIFICATE" ++ "\"")) ∧
    LoadPublicKey envC6 [65] "" =
      (zeroPub, some ("Unsupported PEM block type \"" ++ "CERTIFICATE" ++ "\"")) :=
  ⟨C6_label_dispatch.2.2.1 envC6 [65] "" ⟨"CERTIFICATE", [], [1]⟩
     ⟨"CERTIFICATE", [], [1]⟩ rfl rfl (by decide),
   C6_label_dispatch.2.2.2 envC6 [65] "" ⟨"CERTIFICATE", [], [1]⟩
     ⟨"CERTIFICATE", [], [1]⟩ rfl rfl (by decide)⟩

/-- C8: when the decoded block is detected as encrypted and the single
decryption attempt with the supplied passphrase fails, both loaders return
immediately with the underlying decryption error behind the explanatory
message; the result holds for every assignment of the structural decoders,
so no structural decode of the block is attempted. -/
theorem C8_decryption_failure (env : Env) (bytes : List Nat) (pass : String)
    (block : PEMBlock) (e : String)
    (h1 : env.pemDecode (trimSpace bytes) = some block)
    (h2 : IsEncryptedPEMBlock block = true)
    (h3 : env.DecryptPEMBlock block pass = .error e) :
    LoadPrivateKey env bytes pass =
      (zeroPriv, some ("Error decrypting PEM block: " ++ e)) ∧
    LoadPublicKey env bytes pass =
      (zeroPub, some ("Error decrypting PEM block: " ++ e)) := by
  have heff : effectiveBlock env block pass =
      .error ("Error decrypting PEM block: " ++ e) := by
    unfold effectiveBlock
    rw [h2, h3]
    rfl
  constructor
  · unfold LoadPrivateKey
    simp only [loadPrivateCore, h1, heff]
  · unfold LoadPublicKey
    simp only [loadPublicCore, h1, heff]

/-- Witness for C8: a block carrying a `"DEK-Info"` header whose decryption
fails with a wrong-password error. -/
theorem C8_decryption_failure_witness :
    LoadPrivateKey envC8 [65] "wrong" =
      (zeroPriv, some ("Error decrypting PEM block: " ++
        "x509: decryption password incorrect")) ∧
    LoadPublicKey envC8 [65] "wrong" =
      (zeroPub, some ("Error decrypting PEM block: " ++
        "x509: decryption password incorrect")) :=
  C8_decryption_failure envC8 [65] "wrong"
    ⟨"RSA PRIVATE KEY",
      [("Proc-Type", "4,ENCRYPTED"), ("DEK-Info", "DES-EDE3-CBC,A1B2")], [7]⟩
    "x509: decryption password incorrect" rfl rfl rfl

end Gorsa
